import Mathlib

/-!
Verification of the document-chat application: the React/TypeScript front end
(chat input, message rendering, PDF viewer, send/upload handlers) embedded as
pure Lean functions, and the indexing/search backend (vector collection,
orchestrator state machine, search service) modelled from the specification,
since only its interface documentation ships with the repository.

JavaScript strings are embedded as Lean `String` values, but every operation
on them is implemented here over `String.data` (lists of characters) so that
all definitions evaluate by kernel reduction.
-/

/-! ### JavaScript string primitives -/

/-- ASCII lower-casing of one character, as `String.prototype.toLowerCase`
acts on the ASCII range (the only range relevant to extension checks). -/
def asciiToLower (c : Char) : Char :=
  if 65 ≤ c.toNat ∧ c.toNat ≤ 90 then Char.ofNat (c.toNat + 32) else c

/-- JavaScript `s.toLowerCase()` restricted to ASCII letters. -/
def jsToLower (s : String) : String :=
  String.mk (s.data.map asciiToLower)

/-- Whitespace characters removed by `String.prototype.trim`. -/
def isJsSpace (c : Char) : Bool :=
  c = Char.ofNat 32 ∨ c = Char.ofNat 9 ∨ c = Char.ofNat 10 ∨ c = Char.ofNat 13

/-- JavaScript `s.trim()`. -/
def jsTrim (s : String) : String :=
  String.mk (((s.data.dropWhile isJsSpace).reverse.dropWhile isJsSpace).reverse)

/-- JavaScript `s.split(sep)` for a one-character separator: the list of
groups between occurrences of `sep`; always non-empty. -/
def splitOnChar (sep : Char) : List Char → List (List Char)
  | [] => [[]]
  | c :: cs =>
    match splitOnChar sep cs with
    | [] => [[]]
    | g :: gs => if c = sep then [] :: g :: gs else (c :: g) :: gs

/-- JavaScript split followed by pop, with the empty-string fallback: the
last group produced by split (the array is never empty, and a final empty
group maps to the empty string either way). -/
def jsSplitPop (sep : Char) (s : String) : String :=
  String.mk ((splitOnChar sep s.data).getLastD [])

/-- JavaScript `s.startsWith(pre)`. -/
def jsStartsWith (pre s : String) : Bool :=
  pre.data.isPrefixOf s.data

/-- JavaScript `s.endsWith(suf)`. -/
def jsEndsWith (suf s : String) : Bool :=
  suf.data.isSuffixOf s.data

/-- JavaScript `s.substring(0, n)` (code points as the unit of length). -/
def jsTake (n : Nat) (s : String) : String :=
  String.mk (s.data.take n)

/-- Decimal digits of a natural number, most significant first, computed
with structural fuel so that it reduces in the kernel. -/
def natToCharsAux : Nat → Nat → List Char → List Char
  | 0, _, acc => acc
  | fuel + 1, n, acc =>
    let d := Char.ofNat (48 + n % 10)
    if n < 10 then d :: acc else natToCharsAux fuel (n / 10) (d :: acc)

/-- Decimal rendering of a natural number. -/
def natToChars (n : Nat) : List Char :=
  natToCharsAux (n + 1) n []

/-- Decimal rendering of a natural number as a string. -/
def natToString (n : Nat) : String :=
  String.mk (natToChars n)

/-- Decimal rendering of an integer as a string. -/
def intToString : Int → String
  | Int.ofNat n => natToString n
  | Int.negSucc n => String.mk (Char.ofNat 45 :: natToChars (n + 1))

/-- Upper-case hexadecimal digit for values below 16. -/
def hexUpperChar (d : Nat) : Char :=
  if d < 10 then Char.ofNat (48 + d) else Char.ofNat (55 + d)

/-- Lower-case hexadecimal digit for values below 16. -/
def hexLowerChar (d : Nat) : Char :=
  if d < 10 then Char.ofNat (48 + d) else Char.ofNat (87 + d)

/-- UTF-8 bytes of one character. -/
def utf8ByteList (c : Char) : List Nat :=
  let n := c.toNat
  if n < 128 then [n]
  else if n < 2048 then [192 + n / 64, 128 + n % 64]
  else if n < 65536 then [224 + n / 4096, 128 + (n / 64) % 64, 128 + n % 64]
  else [240 + n / 262144, 128 + (n / 4096) % 64, 128 + (n / 64) % 64, 128 + n % 64]

/-- Characters left unescaped by `encodeURIComponent` (ECMA-262:
ASCII alphanumerics plus hyphen, underscore, dot, bang, tilde, asterisk,
apostrophe and parentheses). -/
def isUriUnreservedChar (c : Char) : Bool :=
  c.isAlphanum ||
    [Char.ofNat 45, Char.ofNat 95, Char.ofNat 46, Char.ofNat 33, Char.ofNat 126,
     Char.ofNat 42, Char.ofNat 39, Char.ofNat 40, Char.ofNat 41].contains c

/-- One percent-encoded byte, e.g. `%2F`. -/
def percentEncodedByte (b : Nat) : List Char :=
  [Char.ofNat 37, hexUpperChar (b / 16), hexUpperChar (b % 16)]

/-- JavaScript `encodeURIComponent`. -/
def encodeURIComponent (s : String) : String :=
  String.mk (s.data.flatMap fun c =>
    if isUriUnreservedChar c then [c]
    else (utf8ByteList c).flatMap percentEncodedByte)

/-! ### File-retrieval URLs (`WebSite/src/App.tsx` `handleOpenPdf`,
`ChatMessage` source-card buttons) -/

/-- Default API root from `WebSite/src/config.ts` (no `VITE_API_BASE`
override). -/
def API_ROOT : String := "http://localhost:8000"

/-- The bare filename after the last path separator: split on the forward
slash and pop, falling back to a backslash split and then to the source
itself, as the TypeScript source-path handling does. -/
def jsBareFilename (source : String) : String :=
  let a := jsSplitPop (Char.ofNat 47) source
  if a ≠ "" then a
  else
    let b := jsSplitPop (Char.ofNat 92) source
    if b ≠ "" then b else source

/-- URL built by `handleOpenPdf` in `WebSite/src/App.tsx` for viewing a PDF
source. -/
def handleOpenPdfUrl (source : String) : String :=
  API_ROOT ++ "/api/v1/files/view/" ++ encodeURIComponent (jsBareFilename source)

/-- URL built by the TXT-preview and DOC/DOCX-download buttons in
`ChatMessage`. -/
def chatDownloadUrl (source : String) : String :=
  "http://localhost:8000/api/v1/files/download/" ++
    encodeURIComponent (jsBareFilename source)

/-- The URL the PDF-open button of a source card requests (present exactly
when the source ends in `.pdf`). -/
def pdfButtonTarget (source : String) : Option String :=
  if jsEndsWith (".pdf") source then some (handleOpenPdfUrl source) else none

/-- The URL the TXT-preview button of a source card requests (present
exactly when the source ends in `.txt`). -/
def txtButtonTarget (source : String) : Option String :=
  if jsEndsWith (".txt") source then some (chatDownloadUrl source) else none

/-- The URL the DOC/DOCX-download button of a source card requests. -/
def docButtonTarget (source : String) : Option String :=
  if jsEndsWith (".docx") source || jsEndsWith (".doc") source then
    some (chatDownloadUrl source)
  else none

/-- Modelled from the spec: the REST surface offers
`GET /files/download/` followed by the URL-encoded filename for file
retrieval (served under the `/api/v1` route root the UI consumes). -/
def specDownloadUrl (filename : String) : String :=
  "http://localhost:8000/api/v1/files/download/" ++ encodeURIComponent filename

/-! ### Chat input send handlers -/

/-- Extensions the upload path accepts (`handleSend`, `ChatInput`). -/
def allowedUploadExts : List String := ["pdf", "txt", "doc", "docx"]

/-- The lowercased extension of the selected file: split the name on the
dot, pop the last group (empty-string fallback), lower-case it. -/
def jsFileExt (name : String) : String :=
  jsToLower (jsSplitPop (Char.ofNat 46) name)

/-- Observable effects of one run of the rich `handleSend`
(`ChatInput.tsx`): whether a server upload was issued, whether the
uploaded-notice was added, the error banner, and the chat message handed to
`onSendMessage` (content and attached file name), if any. -/
structure SendOutcome where
  uploadAttempted : Bool
  uploadedNotice : Bool
  errorMsg : Option String
  chatMessage : Option (String × Option String)
deriving DecidableEq, Repr

/-- The outcome of a send that returns before doing anything. -/
def noOutcome : SendOutcome :=
  { uploadAttempted := false, uploadedNotice := false, errorMsg := none,
    chatMessage := none }

/-- The content passed to `onSendMessage`: the trimmed text when non-empty,
otherwise a sent-file placeholder naming the selected file, otherwise the
empty string. -/
def chatContent (trimmed : String) (selectedFile : Option String) : String :=
  if trimmed ≠ "" then trimmed
  else
    match selectedFile with
    | some n => "Đã gửi file: " ++ n
    | none => ""

/-- `handleSend` of `ChatInput.tsx` (the variant with server upload), as a
function of the input text, the selected file's name, the `isSending` flag
and whether the upload request succeeds. -/
def chatHandleSend (message : String) (selectedFile : Option String)
    (isSending : Bool) (uploadOk : Bool) : SendOutcome :=
  if jsTrim message = "" ∧ selectedFile = none then noOutcome
  else if isSending then noOutcome
  else
    let trimmed := jsTrim message
    let isAutoPlaceholder :=
      jsStartsWith ("Đã chọn:") trimmed || jsStartsWith ("Đã ghi âm") trimmed
    let isUserMessageEmpty := (trimmed == "") || isAutoPlaceholder
    match selectedFile with
    | none =>
      { uploadAttempted := false, uploadedNotice := false, errorMsg := none,
        chatMessage := some (chatContent trimmed none, none) }
    | some name =>
      let onlyUpload := isUserMessageEmpty
      let ext := jsFileExt name
      if ext ∈ allowedUploadExts then
        let err := if uploadOk then none else some ("Upload thất bại")
        if onlyUpload then
          { uploadAttempted := true, uploadedNotice := true, errorMsg := err,
            chatMessage := none }
        else
          { uploadAttempted := true, uploadedNotice := false, errorMsg := err,
            chatMessage := some (chatContent trimmed (some name), some name) }
      else if ext = "wav" then
        if onlyUpload then
          { uploadAttempted := false, uploadedNotice := false,
            errorMsg := some ("File ghi âm (.wav) chưa hỗ trợ upload lên server. Vui lòng nhập nội dung nếu muốn gửi qua chat."),
            chatMessage := none }
        else
          { uploadAttempted := false, uploadedNotice := false,
            errorMsg := some ("File ghi âm (.wav) chưa hỗ trợ upload lên server. Vẫn gửi trong chat."),
            chatMessage := some (chatContent trimmed (some name), some name) }
      else
        if onlyUpload then
          { uploadAttempted := false, uploadedNotice := false,
            errorMsg := some ("Loại file không hỗ trợ upload lên server. Vui lòng nhập nội dung nếu muốn gửi qua chat."),
            chatMessage := none }
        else
          { uploadAttempted := false, uploadedNotice := false,
            errorMsg := some ("Loại file không hỗ trợ upload lên server. Chỉ gửi trong chat."),
            chatMessage := some (chatContent trimmed (some name), some name) }

/-- `handleSend` of `mono/apps/frontend/.../ChatInput.tsx`: `none` when
nothing is sent, otherwise the `(content, file)` pair passed to
`onSendMessage`. -/
def monoHandleSend (message : String) (selectedFile : Option String) :
    Option (String × Option String) :=
  if jsTrim message ≠ "" ∨ selectedFile.isSome then
    some ((if jsTrim message ≠ "" then jsTrim message else "Đã gửi file"),
      selectedFile)
  else none

/-! ### PDF viewer navigation and zoom (`PdfViewer.tsx`) -/

/-- `setScale((prev) => Math.min(prev + 0.25, 3))`. All values involved are
exact multiples of 1/4 within double range, so rationals model the
JavaScript numbers exactly. -/
def handleZoomIn (scale : ℚ) : ℚ := min (scale + 1/4) 3

/-- `setScale((prev) => Math.max(prev - 0.25, 0.5))`. -/
def handleZoomOut (scale : ℚ) : ℚ := max (scale - 1/4) (1/2)

/-- `setCurrentPage((prev) => Math.max(prev - 1, 1))`. -/
def handlePrevPage (currentPage : ℤ) : ℤ := max (currentPage - 1) 1

/-- `setCurrentPage((prev) => Math.min(prev + 1, totalPages))`. -/
def handleNextPage (currentPage totalPages : ℤ) : ℤ :=
  min (currentPage + 1) totalPages

/-! ### JSON values and the chat-response normalizer (`getBotResponse`) -/

/-- Runtime JSON values as produced by `response.json()`. -/
inductive JsValue where
  | null : JsValue
  | bool (b : Bool) : JsValue
  | num (n : Int) : JsValue
  | str (s : String) : JsValue
  | arr (items : List JsValue) : JsValue
  | obj (fields : List (String × JsValue)) : JsValue
deriving Repr

/-- First binding of a key in an object's field list (JavaScript property
lookup on parsed JSON). -/
def lookupField : List (String × JsValue) → String → Option JsValue
  | [], _ => none
  | (k, v) :: ps, key => if k = key then some v else lookupField ps key

/-- JavaScript `x.key` on a JSON value: a field of an object, `undefined`
(here `none`) on anything else. -/
def JsValue.getField : JsValue → String → Option JsValue
  | JsValue.obj ps, key => lookupField ps key
  | _, _ => none

/-- JavaScript truthiness of a JSON value. -/
def JsValue.truthy : JsValue → Bool
  | JsValue.null => false
  | JsValue.bool b => b
  | JsValue.num n => n != 0
  | JsValue.str s => s != ""
  | JsValue.arr _ => true
  | JsValue.obj _ => true

/-- JSON string escaping as performed by `JSON.stringify`. -/
def jsonEscapeChar (c : Char) : List Char :=
  if c = Char.ofNat 34 then [Char.ofNat 92, Char.ofNat 34]
  else if c = Char.ofNat 92 then [Char.ofNat 92, Char.ofNat 92]
  else if c = Char.ofNat 10 then [Char.ofNat 92, Char.ofNat 110]
  else if c = Char.ofNat 13 then [Char.ofNat 92, Char.ofNat 114]
  else if c = Char.ofNat 9 then [Char.ofNat 92, Char.ofNat 116]
  else if c.toNat < 32 then
    [Char.ofNat 92, Char.ofNat 117, Char.ofNat 48, Char.ofNat 48,
     hexLowerChar (c.toNat / 16), hexLowerChar (c.toNat % 16)]
  else [c]

/-- A JSON string literal with surrounding quotes. -/
def jsonQuote (s : String) : String :=
  String.mk (Char.ofNat 34 :: s.data.flatMap jsonEscapeChar ++ [Char.ofNat 34])

/-- Two spaces of indentation per nesting level (`JSON.stringify(x, null, 2)`). -/
def indentOf (lvl : Nat) : String :=
  String.mk (List.replicate (2 * lvl) (Char.ofNat 32))

/-- Join already-indented lines with `,` and a newline. -/
def joinComma : List String → String
  | [] => ""
  | [s] => s
  | s :: rest => s ++ ",\n" ++ joinComma rest

mutual
/-- `JSON.stringify(v, null, 2)` at a given nesting level. -/
def jsonRender : Nat → JsValue → String
  | _, JsValue.null => "null"
  | _, JsValue.bool b => if b then "true" else "false"
  | _, JsValue.num n => intToString n
  | _, JsValue.str s => jsonQuote s
  | _, JsValue.arr [] => "[]"
  | lvl, JsValue.arr (v :: vs) =>
    "[\n" ++ joinComma (jsonRenderItems (lvl + 1) (v :: vs)) ++ "\n" ++
      indentOf lvl ++ "]"
  | _, JsValue.obj [] => "\x7b\x7d"
  | lvl, JsValue.obj (p :: ps) =>
    "\x7b\n" ++ joinComma (jsonRenderPairs (lvl + 1) (p :: ps)) ++ "\n" ++
      indentOf lvl ++ "\x7d"

/-- Rendered, indented array items. -/
def jsonRenderItems : Nat → List JsValue → List String
  | _, [] => []
  | lvl, v :: vs => (indentOf lvl ++ jsonRender lvl v) :: jsonRenderItems lvl vs

/-- Rendered, indented object entries. -/
def jsonRenderPairs : Nat → List (String × JsValue) → List String
  | _, [] => []
  | lvl, (k, v) :: ps =>
    (indentOf lvl ++ jsonQuote k ++ ": " ++ jsonRender lvl v) ::
      jsonRenderPairs lvl ps
end

/-- `JSON.stringify(v, null, 2)`. -/
def jsonStringify (v : JsValue) : String := jsonRender 0 v

/-- `const raw = data?.assistant_response ?? data`: the field when present
and non-null, otherwise the whole body. -/
def jsRawOf (data : JsValue) : JsValue :=
  match data.getField ("assistant_response") with
  | some JsValue.null => data
  | some v => v
  | none => data

/-- The field value when the typeof-string test succeeds on it. -/
def strField (j : JsValue) (key : String) : Option String :=
  match j.getField key with
  | some (JsValue.str s) => some s
  | _ => none

/-- The field value when it is truthy and the typeof-string test succeeds
on it. -/
def truthyStrField (j : JsValue) (key : String) : Option String :=
  match j.getField key with
  | some (JsValue.str s) => if s = "" then none else some s
  | _ => none

/-- `raw.choices && Array.isArray(raw.choices) && raw.choices[0]`: the first
element of a `choices` array when it exists and is truthy. -/
def truthyHeadChoice (raw : JsValue) : Option JsValue :=
  match raw.getField ("choices") with
  | some (JsValue.arr (h :: _)) => if h.truthy then some h else none
  | _ => none

/-- The content field of a truthy message field of the choice, when that
content passes the typeof-string test. -/
def choiceMessageContent (choice : JsValue) : Option String :=
  match choice.getField ("message") with
  | some m => if m.truthy then strField m ("content") else none
  | none => none

/-- Fallback chain applied when `raw` is a non-null object (or array):
`content`, then a truthy string `message`, then `choices[0]`, else
`JSON.stringify(raw, null, 2)`. -/
def normalizeStructured (raw : JsValue) : String :=
  match strField raw ("content") with
  | some s => s
  | none =>
    match truthyStrField raw ("message") with
    | some s => s
    | none =>
      match truthyHeadChoice raw with
      | some choice =>
        (match strField choice ("text") with
         | some s => s
         | none =>
           match choiceMessageContent choice with
           | some s => s
           | none => jsonStringify raw)
      | none => jsonStringify raw

/-- The assistant-text normalization of `getBotResponse` (`App.tsx`):
branches exactly as the TypeScript on the shape of
`raw = data?.assistant_response ?? data`. -/
def normalizeAssistant (data : JsValue) : String :=
  let raw := jsRawOf data
  match raw with
  | JsValue.str s => s
  | JsValue.arr _ => normalizeStructured raw
  | JsValue.obj _ => normalizeStructured raw
  | _ =>
    match data with
    | JsValue.str s => s
    | _ => "Không có phản hồi hợp lệ từ server."

/-- `const sources = data?.sources || []`. -/
def sourcesOf (data : JsValue) : JsValue :=
  match data.getField ("sources") with
  | some v => if v.truthy then v else JsValue.arr []
  | none => JsValue.arr []

/-- Outcome of the `fetch` to the chat endpoint: a non-ok status with the
response text, or an ok response whose body parses to a JSON value
(`none` when `resp.json()` rejects). -/
inductive FetchOutcome where
  | success (body : Option JsValue) : FetchOutcome
  | failure (status : Nat) (text : String) : FetchOutcome

/-- `getBotResponse` (`WebSite/src/App.tsx`): throws on a non-ok response or
an unparsable body, otherwise returns the normalized assistant text and the
extracted sources. -/
def getBotResponse : FetchOutcome → Except String (String × JsValue)
  | FetchOutcome.failure status text =>
    Except.error ("Server returned " ++ natToString status ++ ": " ++ text)
  | FetchOutcome.success none =>
    Except.error ("Unexpected end of JSON input")
  | FetchOutcome.success (some data) =>
    Except.ok (normalizeAssistant data, sourcesOf data)

/-! ### Conversations and `handleSendMessage` (`App.tsx`) -/

/-- Message author. -/
inductive MsgType where
  | user : MsgType
  | bot : MsgType
deriving DecidableEq, Repr

/-- Metadata of a file attached to a chat message. -/
structure MsgFileInfo where
  name : String
  size : Nat
  mime : String
deriving DecidableEq, Repr

/-- One chat message (`Message` in `App.tsx`; an absent `loading` flag is
`false`). -/
structure ChatMsg where
  id : String
  mtype : MsgType
  content : String
  loading : Bool
  file : Option MsgFileInfo
deriving DecidableEq, Repr

/-- One conversation (`Conversation` in `App.tsx`). -/
structure Conversation where
  id : String
  title : String
  messages : List ChatMsg
  lastMessage : String
deriving DecidableEq, Repr

/-- The pieces of component state `handleSendMessage` reads and writes:
the conversation list, the current conversation id, and the set of
conversation ids with a pending bot response (`pendingResponsesRef`). -/
structure AppState where
  conversations : List Conversation
  currentId : String
  pending : List String
deriving DecidableEq, Repr

/-- The duplicate-send guard: the last message of the current conversation
is a user message with the same content and the same attached-file name
(or both sends have no file). -/
def isDuplicateSend (conv? : Option Conversation) (content : String)
    (file : Option MsgFileInfo) : Bool :=
  match conv? with
  | none => false
  | some conv =>
    match conv.messages.getLast? with
    | none => false
    | some m =>
      m.mtype == MsgType.user && m.content == content &&
        (match file, m.file with
         | some f, some mf => mf.name == f.name
         | none, none => true
         | _, _ => false)

/-- The user message appended by `handleSendMessage`. -/
def userMessageOf (now : Nat) (content : String) (file : Option MsgFileInfo) :
    ChatMsg :=
  { id := natToString now, mtype := MsgType.user, content := content,
    loading := false, file := file }

/-- The loading placeholder appended before the bot responds. -/
def placeholderOf (now : Nat) : ChatMsg :=
  { id := natToString (now + 1), mtype := MsgType.bot, content := "",
    loading := true, file := none }

/-- First `setConversations` update: append the user message, refresh
`lastMessage`, `timestamp` and possibly the title. -/
def appendUserMessage (now : Nat) (content : String)
    (file : Option MsgFileInfo) (c : Conversation) : Conversation :=
  { c with
    messages := c.messages ++ [userMessageOf now content file],
    lastMessage := jsTake 50 content,
    title := if c.messages.length = 1 then jsTake 30 content ++ "..." else c.title }

/-- Second `setConversations` update: append the loading placeholder unless
one is already last. -/
def appendPlaceholder (now : Nat) (c : Conversation) : Conversation :=
  match c.messages.getLast? with
  | some m =>
    if m.loading then c
    else { c with messages := c.messages ++ [placeholderOf now] }
  | none => { c with messages := c.messages ++ [placeholderOf now] }

/-- `handleSendMessage` (`App.tsx`): the synchronous effect of one call, up
to and including marking the conversation pending (the awaited bot response
is outside this step). -/
def handleSendMessage (st : AppState) (content : String)
    (file : Option MsgFileInfo) (now : Nat) : AppState :=
  if st.currentId = "" then st
  else if st.pending.contains st.currentId then st
  else
    let conv? := st.conversations.find? fun c => c.id == st.currentId
    if isDuplicateSend conv? content file then st
    else
      let afterUser := st.conversations.map fun c =>
        if c.id == st.currentId then appendUserMessage now content file c else c
      let afterPlaceholder := afterUser.map fun c =>
        if c.id == st.currentId then appendPlaceholder now c else c
      { st with
        conversations := afterPlaceholder,
        pending := st.currentId :: st.pending }

/-! ### Indexing and search backend, modelled from the spec
(`python_be` ships only interface documentation in this repository). -/

/-- Modelled from the spec: a chunk stored in the vector collection —
identifier, owning document name, page number and raw text (the embedding
vector is carried by the scoring function). -/
structure Chunk where
  id : String
  source : String
  page : Nat
  text : String
deriving DecidableEq, Repr

/-- Modelled from the spec: the chunk identifier is a deterministic
combination of (document filename, page, chunk sequence index within the
page). -/
def chunkId (filename : String) (page seqIdx : Nat) : String :=
  filename ++ "_p" ++ natToString page ++ "_c" ++ natToString seqIdx

/-- Modelled from the spec: chunker target length in characters. -/
def chunkTargetLen : Nat := 500

/-- Modelled from the spec: stride between chunk starts (target length minus
the fixed overlap). -/
def chunkStep : Nat := 400

/-- Modelled from the spec: split one page's text into overlapping passages
of the target length; a page shorter than the target yields exactly one
chunk. -/
def chunkPage (text : String) : List String :=
  let n := text.data.length
  if n ≤ chunkTargetLen then [text]
  else
    (List.range ((n - chunkTargetLen + chunkStep - 1) / chunkStep + 1)).map
      fun i => String.mk ((text.data.drop (i * chunkStep)).take chunkTargetLen)

/-- Modelled from the spec: a source document after text extraction — the
filename and the ordered (page number, text) pairs. -/
structure Document where
  filename : String
  pages : List (Nat × String)
deriving DecidableEq, Repr

/-- Modelled from the spec: all chunks of one document, ids derived from
(filename, page, sequence index within the page). -/
def chunksOfDoc (d : Document) : List Chunk :=
  d.pages.flatMap fun pt =>
    (chunkPage pt.2).enum.map fun it =>
      { id := chunkId d.filename pt.1 it.1, source := d.filename,
        page := pt.1, text := it.2 }

/-- Modelled from the spec: the full rebuild output over a document set. -/
def buildChunks (docs : List Document) : List Chunk :=
  docs.flatMap chunksOfDoc

/-- Modelled from the spec: one search result. -/
structure SearchResult where
  id : String
  text : String
  source : String
  page : Nat
  score : ℚ
deriving DecidableEq, Repr

/-- Modelled from the spec: the result built from a chunk under a scoring
function (the embedder and similarity metric folded into one function). -/
def resultOf (score : String → Chunk → ℚ) (q : String) (c : Chunk) :
    SearchResult :=
  { id := c.id, text := c.text, source := c.source, page := c.page,
    score := score q c }

/-- Modelled from the spec: ranking order — descending score, ties broken by
ascending chunk id. -/
def resultLE (a b : SearchResult) : Bool :=
  decide (b.score < a.score ∨ (a.score = b.score ∧ a.id ≤ b.id))

/-- Modelled from the spec: rank all chunks for a query and keep the top k. -/
def searchCollection (score : String → Chunk → ℚ) (q : String) (k : Nat)
    (chunks : List Chunk) : List SearchResult :=
  ((chunks.map (resultOf score q)).mergeSort resultLE).take k

/-- Modelled from the spec: orchestrator state — the exclusivity flag, the
number of concurrently executing build runs, the published collection, the
staging version under construction, and the last terminal result. -/
structure OrchState where
  running : Bool
  activeRuns : Nat
  published : List Chunk
  staging : Option (List Chunk)
  lastBuildOk : Option Bool
deriving DecidableEq, Repr

/-- Modelled from the spec: response to a build request. -/
inductive BuildResponse where
  | started : BuildResponse
  | rejected : BuildResponse
deriving DecidableEq, Repr

/-- Modelled from the spec: a build request is rejected immediately while a
build is running; otherwise it acquires the lock and stages a fresh version
built from the document set. -/
def requestBuild (s : OrchState) (docs : List Document) :
    OrchState × BuildResponse :=
  if s.running then (s, BuildResponse.rejected)
  else
    ({ s with
       running := true,
       activeRuns := s.activeRuns + 1,
       staging := some (buildChunks docs) },
     BuildResponse.started)

/-- Modelled from the spec: events driving the orchestrator state machine. -/
inductive OrchEvent where
  | request (docs : List Document) : OrchEvent
  | completeOk : OrchEvent
  | completeErr : OrchEvent
deriving DecidableEq, Repr

/-- Modelled from the spec: one transition — a build request, a successful
completion (atomic publish of the staged version), or a failed completion
(staged version discarded, published version untouched). -/
def stepEvent (s : OrchState) : OrchEvent → OrchState
  | OrchEvent.request docs => (requestBuild s docs).1
  | OrchEvent.completeOk =>
    if s.running then
      { s with
        running := false,
        activeRuns := s.activeRuns - 1,
        published := s.staging.getD s.published,
        staging := none,
        lastBuildOk := some true }
    else s
  | OrchEvent.completeErr =>
    if s.running then
      { s with
        running := false,
        activeRuns := s.activeRuns - 1,
        staging := none,
        lastBuildOk := some false }
    else s

/-- Modelled from the spec: run a sequence of orchestrator events. -/
def runEvents (s : OrchState) (es : List OrchEvent) : OrchState :=
  es.foldl stepEvent s

/-- Modelled from the spec: initial orchestrator state over a published
collection. -/
def initState (published : List Chunk) : OrchState :=
  { running := false, activeRuns := 0, published := published,
    staging := none, lastBuildOk := none }

/-- Modelled from the spec: the synchronous build entry point — the same
request transition, then awaiting the terminal state. -/
def rebuildSync (s : OrchState) (docs : List Document) : OrchState :=
  match requestBuild s docs with
  | (s1, BuildResponse.started) => stepEvent s1 OrchEvent.completeOk
  | (s1, BuildResponse.rejected) => s1

/-- Modelled from the spec: a query reads the currently published version
only. -/
def searchState (score : String → Chunk → ℚ) (s : OrchState) (q : String)
    (k : Nat) : List SearchResult :=
  searchCollection score q k s.published

/-- Modelled from the spec: `search(query, k)` fails with a ValidationError
on an empty query or an out-of-bounds k, otherwise queries the published
collection. -/
def searchService (score : String → Chunk → ℚ) (s : OrchState)
    (query : String) (k : Nat) : Except String (List SearchResult) :=
  if query = "" then Except.error ("ValidationError: query must not be empty")
  else if k < 1 ∨ 50 < k then Except.error ("ValidationError: k out of bounds")
  else Except.ok (searchState score s query k)

/-- The single-writer invariant: the run counter agrees with the lock. -/
def OrchInv (s : OrchState) : Prop :=
  s.activeRuns = if s.running then 1 else 0

/-- A collection value is a fully-built version: the initial one, or the
complete output of a rebuild over some document set — never a mixture. -/
def IsFullVersion (initial c : List Chunk) : Prop :=
  c = initial ∨ ∃ docs, c = buildChunks docs

/-- Versioning invariant: the published collection is always a fully-built
version, and so is any staged one. -/
def VersionInv (initial : List Chunk) (s : OrchState) : Prop :=
  IsFullVersion initial s.published ∧
    (s.staging = none ∨ ∃ docs, s.staging = some (buildChunks docs))

/-! ## Theorems -/

/-- Claim C10: starting from any scale in the interval from 1/2 to 3,
`handleZoomIn` and `handleZoomOut` stay in that interval, and starting from
any current page between 1 and `totalPages`, `handlePrevPage` and
`handleNextPage` stay between 1 and `totalPages`. -/
theorem c10_pdf_viewer_bounds (scale : ℚ) (p total : ℤ)
    (h1 : 1/2 ≤ scale) (h2 : scale ≤ 3) (hp1 : 1 ≤ p) (hp2 : p ≤ total) :
    (1/2 ≤ handleZoomIn scale ∧ handleZoomIn scale ≤ 3) ∧
    (1/2 ≤ handleZoomOut scale ∧ handleZoomOut scale ≤ 3) ∧
    (1 ≤ handlePrevPage p ∧ handlePrevPage p ≤ total) ∧
    (1 ≤ handleNextPage p total ∧ handleNextPage p total ≤ total) := by
  simp only [handleZoomIn, handleZoomOut, handlePrevPage, handleNextPage]
  refine ⟨⟨?_, ?_⟩, ⟨?_, ?_⟩, ⟨?_, ?_⟩, ⟨?_, ?_⟩⟩
  · exact le_min (by linarith) (by norm_num)
  · exact min_le_right _ _
  · exact le_max_right _ _
  · exact max_le (by linarith) (by norm_num)
  · exact le_max_right _ _
  · exact max_le (by linarith) (le_trans hp1 hp2)
  · exact le_min (by linarith) (le_trans hp1 hp2)
  · exact min_le_right _ _

/-- Witness for C10: the bounds hold concretely at scale 3/2 on page 1 of a
10-page document. -/
theorem c10_pdf_viewer_bounds_witness :
    ((1:ℚ)/2 ≤ 3/2 ∧ (3/2:ℚ) ≤ 3 ∧ (1:ℤ) ≤ 1 ∧ (1:ℤ) ≤ 10) ∧
    ((1/2 ≤ handleZoomIn (3/2) ∧ handleZoomIn (3/2) ≤ 3) ∧
     (1/2 ≤ handleZoomOut (3/2) ∧ handleZoomOut (3/2) ≤ 3) ∧
     (1 ≤ handlePrevPage 1 ∧ handlePrevPage 1 ≤ 10) ∧
     (1 ≤ handleNextPage 1 10 ∧ handleNextPage 1 10 ≤ 10)) :=
  ⟨⟨by norm_num, by norm_num, by norm_num, by norm_num⟩,
   c10_pdf_viewer_bounds (3/2) 1 10 (by norm_num) (by norm_num) (by norm_num)
     (by norm_num)⟩

/-- Claim C3: an empty query fails search with a ValidationError before any
collection access, and at the UI both send handlers are no-ops when the
trimmed input is empty and no file is selected. -/
theorem c3_empty_query_rejected :
    (∀ score s k, searchService score s "" k
        = Except.error ("ValidationError: query must not be empty")) ∧
    (∀ message isSending uploadOk, jsTrim message = "" →
        chatHandleSend message none isSending uploadOk = noOutcome) ∧
    (∀ message, jsTrim message = "" → monoHandleSend message none = none) := by
  refine ⟨fun score s k => rfl, fun message isSending uploadOk h => ?_,
    fun message h => ?_⟩
  · simp [chatHandleSend, h]
  · simp [monoHandleSend, h]

/-- Witness for C3: the whitespace-only input with no file is rejected in
all three places. -/
theorem c3_empty_query_rejected_witness :
    jsTrim ("  ") = "" ∧
    searchService (fun _ _ => 0) (initState []) "" 3
      = Except.error ("ValidationError: query must not be empty") ∧
    chatHandleSend ("  ") none false true = noOutcome ∧
    monoHandleSend ("  ") none = none := by
  refine ⟨by decide, c3_empty_query_rejected.1 (fun _ _ => 0) (initState []) 3,
    c3_empty_query_rejected.2.1 ("  ") false true (by decide),
    c3_empty_query_rejected.2.2 ("  ") (by decide)⟩

/-- Claim C1: `handleSend` issues a server upload only when the attached
file's lowercased extension is in the fixed allowed set, and for any other
extension it issues no upload and shows a descriptive error message. -/
theorem c1_upload_extension_gate (message name : String)
    (isSending uploadOk : Bool) :
    ((chatHandleSend message (some name) isSending uploadOk).uploadAttempted
        = true → jsFileExt name ∈ allowedUploadExts) ∧
    (isSending = false → jsFileExt name ∉ allowedUploadExts →
        (chatHandleSend message (some name) isSending uploadOk).uploadAttempted
          = false ∧
        (chatHandleSend message (some name) isSending uploadOk).errorMsg
          ≠ none) := by
  cases isSending with
  | true =>
    refine ⟨fun h => ?_, fun hfalse => by simp at hfalse⟩
    exfalso
    simp [chatHandleSend, noOutcome] at h
  | false =>
    by_cases hmem : jsFileExt name ∈ allowedUploadExts
    · exact ⟨fun _ => hmem, fun _ hnot => absurd hmem hnot⟩
    · have key :
          (chatHandleSend message (some name) false uploadOk).uploadAttempted
            = false ∧
          (chatHandleSend message (some name) false uploadOk).errorMsg
            ≠ none := by
        simp only [chatHandleSend]
        rw [if_neg
          (by simp : ¬(jsTrim message = "" ∧ (some name : Option String) = none))]
        rw [if_neg (by simp : ¬(false = true))]
        rw [if_neg hmem]
        constructor
        · split
          · split <;> rfl
          · split <;> rfl
        · split
          · split <;> simp
          · split <;> simp
      exact ⟨fun h => by simp [key.1] at h, fun _ _ => key⟩

/-- Witness for C1: a `.wav` voice recording is not uploaded and produces an
error message. -/
theorem c1_upload_extension_gate_witness :
    jsFileExt ("voice-7.wav") ∉ allowedUploadExts ∧
    (chatHandleSend ("xin chào") (some ("voice-7.wav")) false true).uploadAttempted
      = false ∧
    (chatHandleSend ("xin chào") (some ("voice-7.wav")) false true).errorMsg
      ≠ none := by
  have h := (c1_upload_extension_gate ("xin chào") ("voice-7.wav") false
    true).2 rfl (by decide)
  exact ⟨by decide, h.1, h.2⟩

/-- Claim C2 counterexample: opening a PDF source builds
`/api/v1/files/view/manual.pdf`, not the `/files/download/` URL the claim
requires for all retrievals. -/
theorem c2_pdf_view_url_counterexample :
    pdfButtonTarget ("document_source/manual.pdf")
        = some ("http://localhost:8000/api/v1/files/view/manual.pdf") ∧
    pdfButtonTarget ("document_source/manual.pdf")
        ≠ some (specDownloadUrl (jsBareFilename ("document_source/manual.pdf"))) := by
  constructor
  · decide
  · decide

/-- Claim C2 as amended: TXT and DOC/DOCX retrieval URLs target
`GET /files/download/` with the URL-encoded bare filename, while PDF viewing
instead targets `GET /files/view/` with the URL-encoded bare filename. -/
theorem c2_retrieval_urls_amended (source : String) :
    (jsEndsWith (".txt") source = true →
        txtButtonTarget source
          = some (specDownloadUrl (jsBareFilename source))) ∧
    ((jsEndsWith (".docx") source || jsEndsWith (".doc") source) = true →
        docButtonTarget source
          = some (specDownloadUrl (jsBareFilename source))) ∧
    (jsEndsWith (".pdf") source = true →
        pdfButtonTarget source
          = some (API_ROOT ++ "/api/v1/files/view/" ++
              encodeURIComponent (jsBareFilename source))) := by
  refine ⟨fun h => ?_, fun h => ?_, fun h => ?_⟩
  · simp [txtButtonTarget, h, chatDownloadUrl, specDownloadUrl]
  · simp [docButtonTarget, h, chatDownloadUrl, specDownloadUrl]
  · simp [pdfButtonTarget, h, handleOpenPdfUrl]

/-- Witness for the amended C2 on concrete TXT, DOCX and PDF sources. -/
theorem c2_retrieval_urls_amended_witness :
    jsEndsWith (".txt") ("notes.txt") = true ∧
    txtButtonTarget ("notes.txt")
      = some (specDownloadUrl (jsBareFilename ("notes.txt"))) ∧
    (jsEndsWith (".docx") ("document_source/report.docx") ||
        jsEndsWith (".doc") ("document_source/report.docx")) = true ∧
    docButtonTarget ("document_source/report.docx")
      = some (specDownloadUrl (jsBareFilename ("document_source/report.docx"))) ∧
    jsEndsWith (".pdf") ("manual.pdf") = true ∧
    pdfButtonTarget ("manual.pdf")
      = some (API_ROOT ++ "/api/v1/files/view/" ++
          encodeURIComponent (jsBareFilename ("manual.pdf"))) := by
  refine ⟨by decide, (c2_retrieval_urls_amended ("notes.txt")).1 (by decide),
    by decide,
    (c2_retrieval_urls_amended ("document_source/report.docx")).2.1 (by decide),
    by decide, (c2_retrieval_urls_amended ("manual.pdf")).2.2 (by decide)⟩


/-- Claim C9: `handleSendMessage` ignores a send while a bot response is
pending for the current conversation, ignores a duplicate of the last user
message (same content and same attached-file name, or both without a file),
and is idempotent: a repeated identical call leaves the state of the first
call unchanged. -/
theorem c9_handleSendMessage_idempotent :
    (∀ (st : AppState) content file now,
        st.currentId ∈ st.pending →
        handleSendMessage st content file now = st) ∧
    (∀ (st : AppState) content file now,
        isDuplicateSend (st.conversations.find? fun c => c.id == st.currentId)
            content file = true →
        handleSendMessage st content file now = st) ∧
    (∀ (st : AppState) content file now now2,
        handleSendMessage (handleSendMessage st content file now) content file
            now2
          = handleSendMessage st content file now) := by
  have hpend : ∀ (st : AppState) content file now,
      st.currentId ∈ st.pending →
      handleSendMessage st content file now = st := by
    intro st content file now h
    simp [handleSendMessage, h]
  refine ⟨hpend, ?_, ?_⟩
  · intro st content file now h
    simp [handleSendMessage, h]
  · intro st content file now now2
    by_cases h0 : st.currentId = ""
    · simp [handleSendMessage, h0]
    · by_cases hp : st.currentId ∈ st.pending
      · simp [handleSendMessage, hp]
      · by_cases hd : isDuplicateSend
            (st.conversations.find? fun c => c.id == st.currentId) content file
            = true
        · have h1 : handleSendMessage st content file now = st := by
            simp [handleSendMessage, h0, hp, hd]
          rw [h1]
          simp [handleSendMessage, h0, hp, hd]
        · have hcur :
              (handleSendMessage st content file now).currentId
                = st.currentId := by
            simp [handleSendMessage, h0, hp, hd]
          have hpend2 :
              (handleSendMessage st content file now).pending
                = st.currentId :: st.pending := by
            simp [handleSendMessage, h0, hp, hd]
          apply hpend
          rw [hcur, hpend2]
          simp

/-- Witness for C9: a pending conversation swallows a send, a duplicate last
user message swallows a send, and a repeated identical send after a first
one changes nothing. -/
theorem c9_handleSendMessage_idempotent_witness :
    (("1" : String) ∈ (⟨[], "1", ["1"]⟩ : AppState).pending) ∧
    handleSendMessage ⟨[], "1", ["1"]⟩ "hi" none 5 = ⟨[], "1", ["1"]⟩ ∧
    (isDuplicateSend
        ((⟨[⟨"1", "t", [⟨"9", MsgType.user, "hi", false, none⟩], "hi"⟩],
            "1", []⟩ : AppState).conversations.find? fun c =>
          c.id == (⟨[⟨"1", "t", [⟨"9", MsgType.user, "hi", false, none⟩], "hi"⟩],
            "1", []⟩ : AppState).currentId)
        "hi" none = true) ∧
    handleSendMessage
        ⟨[⟨"1", "t", [⟨"9", MsgType.user, "hi", false, none⟩], "hi"⟩], "1", []⟩
        "hi" none 5
      = ⟨[⟨"1", "t", [⟨"9", MsgType.user, "hi", false, none⟩], "hi"⟩], "1", []⟩ ∧
    handleSendMessage
        (handleSendMessage ⟨[⟨"1", "t", [], ""⟩], "1", []⟩ "xin chào" none 7)
        "xin chào" none 8
      = handleSendMessage ⟨[⟨"1", "t", [], ""⟩], "1", []⟩ "xin chào" none 7 := by
  refine ⟨by decide, ?_, by decide, ?_, ?_⟩
  · exact c9_handleSendMessage_idempotent.1 _ "hi" none 5 (by decide)
  · exact c9_handleSendMessage_idempotent.2.1 _ "hi" none 5 (by decide)
  · exact c9_handleSendMessage_idempotent.2.2 _ "xin chào" none 7 8

/-- One orchestrator transition preserves the single-writer invariant. -/
theorem orchInv_stepEvent (s : OrchState) (e : OrchEvent) (h : OrchInv s) :
    OrchInv (stepEvent s e) := by
  cases e with
  | request docs =>
    by_cases hr : s.running
    · simpa [stepEvent, requestBuild, hr] using h
    · simp only [OrchInv, hr, if_false] at h
      simp [OrchInv, stepEvent, requestBuild, hr, h]
  | completeOk =>
    by_cases hr : s.running
    · simp only [OrchInv, hr, if_true] at h
      simp [OrchInv, stepEvent, hr, h]
    · simpa [stepEvent, hr] using h
  | completeErr =>
    by_cases hr : s.running
    · simp only [OrchInv, hr, if_true] at h
      simp [OrchInv, stepEvent, hr, h]
    · simpa [stepEvent, hr] using h

/-- Any event sequence preserves the single-writer invariant. -/
theorem orchInv_runEvents (es : List OrchEvent) (s : OrchState)
    (h : OrchInv s) : OrchInv (runEvents s es) := by
  induction es generalizing s with
  | nil => simpa [runEvents] using h
  | cons e es ih =>
    simpa [runEvents] using ih (stepEvent s e) (orchInv_stepEvent s e h)

/-- Claim C6: in every state reachable from the initial one, at most one
build run is active process-wide, and a build request issued while one is
running is rejected with the state unchanged rather than queued or started
concurrently. -/
theorem c6_single_running_build (published : List Chunk) (es : List OrchEvent)
    (docs : List Document) :
    (runEvents (initState published) es).activeRuns ≤ 1 ∧
    ((runEvents (initState published) es).running = true →
        requestBuild (runEvents (initState published) es) docs
          = (runEvents (initState published) es, BuildResponse.rejected)) := by
  have hinv : OrchInv (runEvents (initState published) es) :=
    orchInv_runEvents es (initState published) (by simp [OrchInv, initState])
  constructor
  · rw [OrchInv] at hinv
    rw [hinv]
    split <;> simp
  · intro hr
    simp [requestBuild, hr]

/-- Witness for C6: after one accepted build request the machine is running,
and a second request is rejected with the state unchanged. -/
theorem c6_single_running_build_witness :
    (runEvents (initState []) [OrchEvent.request []]).running = true ∧
    requestBuild (runEvents (initState []) [OrchEvent.request []]) []
      = (runEvents (initState []) [OrchEvent.request []],
         BuildResponse.rejected) :=
  ⟨rfl, (c6_single_running_build [] [OrchEvent.request []] []).2 rfl⟩

/-- Claim C5: from any non-running state, rebuilding twice over the same
document set publishes identical chunk ids and an identical chunk count, and
each rebuild publishes exactly the chunks deterministically derived from the
documents. -/
theorem c5_rebuild_idempotent (s : OrchState) (docs : List Document)
    (h : s.running = false) :
    ((rebuildSync (rebuildSync s docs) docs).published.map Chunk.id
        = (rebuildSync s docs).published.map Chunk.id) ∧
    ((rebuildSync (rebuildSync s docs) docs).published.length
        = (rebuildSync s docs).published.length) ∧
    (rebuildSync s docs).published = buildChunks docs := by
  have key : ∀ t : OrchState, t.running = false →
      (rebuildSync t docs).published = buildChunks docs ∧
      (rebuildSync t docs).running = false := by
    intro t ht
    simp [rebuildSync, requestBuild, ht, stepEvent]
  obtain ⟨h1, h1r⟩ := key s h
  obtain ⟨h2, _⟩ := key (rebuildSync s docs) h1r
  exact ⟨by rw [h1, h2], by rw [h1, h2], h1⟩

/-- Witness for C5: rebuilding twice from an empty initial collection over a
one-document set yields identical ids, counts, and the expected chunks. -/
theorem c5_rebuild_idempotent_witness :
    (initState []).running = false ∧
    ((rebuildSync (rebuildSync (initState [])
            [⟨"a.txt", [(1, "hello")]⟩]) [⟨"a.txt", [(1, "hello")]⟩]).published.map
          Chunk.id
        = (rebuildSync (initState [])
            [⟨"a.txt", [(1, "hello")]⟩]).published.map Chunk.id) ∧
    ((rebuildSync (rebuildSync (initState [])
            [⟨"a.txt", [(1, "hello")]⟩]) [⟨"a.txt", [(1, "hello")]⟩]).published.length
        = (rebuildSync (initState [])
            [⟨"a.txt", [(1, "hello")]⟩]).published.length) ∧
    (rebuildSync (initState []) [⟨"a.txt", [(1, "hello")]⟩]).published
      = buildChunks [⟨"a.txt", [(1, "hello")]⟩] := by
  have h := c5_rebuild_idempotent (initState []) [⟨"a.txt", [(1, "hello")]⟩] rfl
  exact ⟨rfl, h.1, h.2.1, h.2.2⟩

/-- One orchestrator transition preserves the versioning invariant. -/
theorem versionInv_stepEvent (initial : List Chunk) (s : OrchState)
    (e : OrchEvent) (h : VersionInv initial s) :
    VersionInv initial (stepEvent s e) := by
  obtain ⟨hpub, hstg⟩ := h
  cases e with
  | request docs =>
    by_cases hr : s.running
    · simpa [stepEvent, requestBuild, hr] using ⟨hpub, hstg⟩
    · refine ⟨?_, ?_⟩
      · simpa [stepEvent, requestBuild, hr] using hpub
      · simp [stepEvent, requestBuild, hr]
  | completeOk =>
    by_cases hr : s.running
    · rcases hstg with hnone | ⟨docs, hsome⟩
      · refine ⟨?_, ?_⟩
        · simpa [stepEvent, hr, hnone] using hpub
        · simp [stepEvent, hr]
      · refine ⟨?_, ?_⟩
        · simp [stepEvent, hr, hsome, IsFullVersion]
        · simp [stepEvent, hr]
    · simpa [stepEvent, hr] using ⟨hpub, hstg⟩
  | completeErr =>
    by_cases hr : s.running
    · refine ⟨?_, ?_⟩
      · simpa [stepEvent, hr] using hpub
      · simp [stepEvent, hr]
    · simpa [stepEvent, hr] using ⟨hpub, hstg⟩

/-- Any event sequence preserves the versioning invariant. -/
theorem versionInv_runEvents (initial : List Chunk) (es : List OrchEvent)
    (s : OrchState) (h : VersionInv initial s) :
    VersionInv initial (runEvents s es) := by
  induction es generalizing s with
  | nil => simpa [runEvents] using h
  | cons e es ih =>
    simpa [runEvents] using ih (stepEvent s e) (versionInv_stepEvent initial s e h)

/-- Claim C7: a search issued at any point reads only the published, fully
built collection version: starting a rebuild does not change search results,
the published collection in any reachable state is a complete version (the
initial one or the full output of some rebuild, never a mixture), and a
search always returns `min k size` results, so a version swap in progress
never produces an empty answer. -/
theorem c7_atomic_search_visibility (published : List Chunk)
    (es : List OrchEvent) (score : String → Chunk → ℚ) (q : String) (k : Nat)
    (docs : List Document) :
    (searchState score (requestBuild (runEvents (initState published) es)
          docs).1 q k
        = searchState score (runEvents (initState published) es) q k) ∧
    IsFullVersion published (runEvents (initState published) es).published ∧
    ((searchState score (runEvents (initState published) es) q k).length
        = min k (runEvents (initState published) es).published.length) := by
  refine ⟨?_, ?_, ?_⟩
  · by_cases hr : (runEvents (initState published) es).running <;>
      simp [searchState, requestBuild, hr]
  · exact (versionInv_runEvents published es (initState published)
      ⟨Or.inl rfl, Or.inl rfl⟩).1
  · simp [searchState, searchCollection]

/-- The ranking comparison is transitive. -/
theorem resultLE_trans (a b c : SearchResult) (hab : resultLE a b = true)
    (hbc : resultLE b c = true) : resultLE a c = true := by
  simp only [resultLE, decide_eq_true_eq] at hab hbc ⊢
  rcases hab with h1 | ⟨h1, h1i⟩ <;> rcases hbc with h2 | ⟨h2, h2i⟩
  · exact Or.inl (lt_trans h2 h1)
  · exact Or.inl (by rw [← h2]; exact h1)
  · exact Or.inl (by rw [h1]; exact h2)
  · exact Or.inr ⟨h1.trans h2, le_trans h1i h2i⟩

/-- The ranking comparison is total. -/
theorem resultLE_total (a b : SearchResult) :
    (resultLE a b || resultLE b a) = true := by
  simp only [resultLE, Bool.or_eq_true, decide_eq_true_eq]
  rcases lt_trichotomy a.score b.score with h | h | h
  · exact Or.inr (Or.inl h)
  · rcases le_total a.id b.id with hid | hid
    · exact Or.inl (Or.inr ⟨h, hid⟩)
    · exact Or.inr (Or.inr ⟨h.symm, hid⟩)
  · exact Or.inl (Or.inl h)

/-- Claim C4: for a fixed query and count k, the returned results are
ordered by descending score with ties broken by ascending chunk id, and they
are a prefix of a ranking that is a permutation of the scored chunks, so the
list is a deterministic function of the collection. -/
theorem c4_ranking_order (score : String → Chunk → ℚ) (q : String) (k : Nat)
    (chunks : List Chunk) :
    ((searchCollection score q k chunks).Pairwise fun a b =>
        b.score < a.score ∨ (a.score = b.score ∧ a.id ≤ b.id)) ∧
    List.Perm ((chunks.map (resultOf score q)).mergeSort resultLE)
      (chunks.map (resultOf score q)) ∧
    searchCollection score q k chunks
      = ((chunks.map (resultOf score q)).mergeSort resultLE).take k := by
  refine ⟨?_, List.mergeSort_perm _ _, rfl⟩
  have hs : ((chunks.map (resultOf score q)).mergeSort resultLE).Pairwise
      fun a b => resultLE a b = true :=
    List.sorted_mergeSort
      (fun a b c hab hbc => resultLE_trans a b c hab hbc)
      (fun a b => resultLE_total a b) (chunks.map (resultOf score q))
  have hs2 : ((chunks.map (resultOf score q)).mergeSort resultLE).Pairwise
      fun a b => b.score < a.score ∨ (a.score = b.score ∧ a.id ≤ b.id) := by
    refine hs.imp ?_
    intro a b h
    simpa [resultLE, decide_eq_true_eq] using h
  exact hs2.sublist (List.take_sublist k _)

/-- Claim C8: `getBotResponse` fails exactly on a non-ok response or an
unparsable body; otherwise it returns a string for every JSON body shape,
taking `assistant_response` when it is a string and, for an object, falling
back through `content`, a truthy string `message`, `choices[0]`, and finally
the JSON stringification of the object. -/
theorem c8_getBotResponse_normalization :
    (∀ outcome, (∃ v, getBotResponse outcome = Except.ok v) ↔
        ∃ d, outcome = FetchOutcome.success (some d)) ∧
    (∀ data s, data.getField ("assistant_response") = some (JsValue.str s) →
        normalizeAssistant data = s) ∧
    (∀ fields s, lookupField fields ("assistant_response") = none →
        strField (JsValue.obj fields) ("content") = some s →
        normalizeAssistant (JsValue.obj fields) = s) ∧
    (∀ fields s, lookupField fields ("assistant_response") = none →
        strField (JsValue.obj fields) ("content") = none →
        truthyStrField (JsValue.obj fields) ("message") = some s →
        normalizeAssistant (JsValue.obj fields) = s) ∧
    (∀ fields choice s, lookupField fields ("assistant_response") = none →
        strField (JsValue.obj fields) ("content") = none →
        truthyStrField (JsValue.obj fields) ("message") = none →
        truthyHeadChoice (JsValue.obj fields) = some choice →
        strField choice ("text") = some s →
        normalizeAssistant (JsValue.obj fields) = s) ∧
    (∀ fields, lookupField fields ("assistant_response") = none →
        strField (JsValue.obj fields) ("content") = none →
        truthyStrField (JsValue.obj fields) ("message") = none →
        truthyHeadChoice (JsValue.obj fields) = none →
        normalizeAssistant (JsValue.obj fields)
          = jsonStringify (JsValue.obj fields)) := by
  have hrawobj : ∀ fields, lookupField fields ("assistant_response") = none →
      jsRawOf (JsValue.obj fields) = JsValue.obj fields := by
    intro fields h
    simp [jsRawOf, JsValue.getField, h]
  refine ⟨?_, ?_, ?_, ?_, ?_, ?_⟩
  · intro outcome
    cases outcome with
    | success body => cases body <;> simp [getBotResponse]
    | failure status text => simp [getBotResponse]
  · intro data s h
    have hraw : jsRawOf data = JsValue.str s := by
      simp [jsRawOf, h]
    simp [normalizeAssistant, hraw]
  · intro fields s h hc
    simp [normalizeAssistant, hrawobj fields h, normalizeStructured, hc]
  · intro fields s h hc hm
    simp [normalizeAssistant, hrawobj fields h, normalizeStructured, hc, hm]
  · intro fields choice s h hc hm hch ht
    simp [normalizeAssistant, hrawobj fields h, normalizeStructured, hc, hm,
      hch, ht]
  · intro fields h hc hm hch
    simp [normalizeAssistant, hrawobj fields h, normalizeStructured, hc, hm,
      hch, jsonStringify]

/-- Witness for C8: each branch of the normalizer at a concrete body. -/
theorem c8_getBotResponse_normalization_witness :
    (∃ v, getBotResponse (FetchOutcome.success (some (JsValue.str "ok")))
        = Except.ok v) ∧
    normalizeAssistant
        (JsValue.obj [("assistant_response", JsValue.str "hi")]) = "hi" ∧
    normalizeAssistant (JsValue.obj [("content", JsValue.str "c")]) = "c" ∧
    normalizeAssistant (JsValue.obj [("message", JsValue.str "m")]) = "m" ∧
    normalizeAssistant
        (JsValue.obj
          [("choices", JsValue.arr [JsValue.obj [("text", JsValue.str "t")]])])
      = "t" ∧
    normalizeAssistant (JsValue.obj [("x", JsValue.num 1)])
      = jsonStringify (JsValue.obj [("x", JsValue.num 1)]) := by
  refine ⟨?_, ?_, ?_, ?_, ?_, ?_⟩
  · exact (c8_getBotResponse_normalization.1
      (FetchOutcome.success (some (JsValue.str "ok")))).mpr ⟨_, rfl⟩
  · exact c8_getBotResponse_normalization.2.1 _ "hi" rfl
  · exact c8_getBotResponse_normalization.2.2.1 _ "c" rfl rfl
  · exact c8_getBotResponse_normalization.2.2.2.1 _ "m" rfl rfl rfl
  · exact c8_getBotResponse_normalization.2.2.2.2.1 _ _ "t" rfl rfl rfl rfl rfl
  · exact c8_getBotResponse_normalization.2.2.2.2.2 _ rfl rfl rfl rfl
